import Mathlib

/-!
Verification of the LoadSpiker load-testing engine (Python fallback
implementation) against its natural-language specification.

The definitions below are a shallow embedding of the Python sources:
  - src/loadspiker/engine.py            (class _PythonEngine)
  - src/loadspiker/session_manager.py   (SessionStore, SessionManager)
  - src/loadspiker/assertions.py        (Assertion subclasses, AssertionGroup)
  - src/loadspiker/performance_assertions.py
  - src/loadspiker/data_sources.py      (DataDistributor)
  - src/loadspiker/scenarios.py         (Scenario variable substitution)

Modelling conventions:
  - Python dicts with string keys are association lists in insertion
    order; assignment to an existing key updates the entry in place,
    a new key is appended (dictSet below).
  - Python sets of ints are Finset nat.
  - Wall-clock measurements (time.time differences) and float fields
    are rationals, supplied as oracle inputs where the code measures.
  - Network and socket I/O is nondeterministic: every try-block that
    performs I/O takes an oracle argument saying whether the calls
    succeed or some call raises an exception with a given message.
  - A user callback that may raise is a function into Option, with
    none standing for an exception escaping the callback.
-/

namespace LoadSpiker

/-- Lookup in a string-keyed association list (Python d.get(k) / d[k]). -/
def lookupKey (m : List (String × String)) (k : String) : Option String :=
  match m with
  | [] => none
  | (k1, v) :: rest => if k1 = k then some v else lookupKey rest k

/-- Membership test (Python k in d). -/
def hasKey (m : List (String × String)) (k : String) : Bool :=
  (lookupKey m k).isSome

/-- Python dict assignment d[k] = v: update in place if the key exists,
append otherwise (insertion order preserved). -/
def dictSet (m : List (String × String)) (k v : String) : List (String × String) :=
  match m with
  | [] => [(k, v)]
  | (k1, v1) :: rest =>
      if k1 = k then (k1, v) :: rest else (k1, v1) :: dictSet rest k v

/-- Lookup in a rational-valued association list (metrics dictionaries). -/
def lookupQ (m : List (String × ℚ)) (k : String) : Option ℚ :=
  match m with
  | [] => none
  | (k1, v) :: rest => if k1 = k then some v else lookupQ rest k

/-- Python metrics.get(k, d) with default. -/
def getQ (m : List (String × ℚ)) (k : String) (d : ℚ) : ℚ :=
  (lookupQ m k).getD d

/-- The engine metrics dictionary of _PythonEngine (engine.py lines 99-107):
the seven keys it is initialised with and that reset_metrics restores. -/
structure Metrics where
  total_requests : ℕ
  successful_requests : ℕ
  failed_requests : ℕ
  total_response_time_ms : ℚ
  min_response_time_ms : ℚ
  max_response_time_ms : ℚ
  requests_per_second : ℚ
deriving Repr, DecidableEq

/-- The zero baseline of the metrics dictionary (engine.py lines 99-107
and, identically, reset_metrics at lines 180-188). -/
def Metrics.init : Metrics :=
  { total_requests := 0
    successful_requests := 0
    failed_requests := 0
    total_response_time_ms := 0
    min_response_time_ms := 0
    max_response_time_ms := 0
    requests_per_second := 0 }

/-- The dictionary view of the metrics, as returned by get_metrics
(a copy of self.metrics, exactly these seven keys). -/
def metricsDict (m : Metrics) : List (String × ℚ) :=
  [ ("total_requests", (m.total_requests : ℚ))
  , ("successful_requests", (m.successful_requests : ℚ))
  , ("failed_requests", (m.failed_requests : ℚ))
  , ("total_response_time_ms", m.total_response_time_ms)
  , ("min_response_time_ms", m.min_response_time_ms)
  , ("max_response_time_ms", m.max_response_time_ms)
  , ("requests_per_second", m.requests_per_second) ]

/-- Counter bump on a success path: total_requests += 1,
successful_requests += 1 (the pattern used by every tcp/udp/mqtt
success path in engine.py). -/
def Metrics.recordSuccess (m : Metrics) : Metrics :=
  { m with total_requests := m.total_requests + 1
           successful_requests := m.successful_requests + 1 }

/-- Counter bump on a failure path: total_requests += 1,
failed_requests += 1 (the pattern used by every except path). -/
def Metrics.recordFailure (m : Metrics) : Metrics :=
  { m with total_requests := m.total_requests + 1
           failed_requests := m.failed_requests + 1 }

/-- Metrics update of execute_request on its non-exception path
(engine.py lines 138-149): bump total, bump successful or failed by
status_code < 400, add the response time, update min (treating a
stored 0 as unset) and max. -/
def Metrics.recordHttp (m : Metrics) (status : ℕ) (rt : ℚ) : Metrics :=
  let m1 :=
    if status < 400 then
      { m with total_requests := m.total_requests + 1
               successful_requests := m.successful_requests + 1 }
    else
      { m with total_requests := m.total_requests + 1
               failed_requests := m.failed_requests + 1 }
  let m2 := { m1 with total_response_time_ms := m1.total_response_time_ms + rt }
  let m3 :=
    if m2.min_response_time_ms = 0 ∨ rt < m2.min_response_time_ms then
      { m2 with min_response_time_ms := rt }
    else m2
  if m3.max_response_time_ms < rt then
    { m3 with max_response_time_ms := rt }
  else m3

/-- The outcome record built by the engine operations. Fields not
needed by any claim (response_time_us, headers, protocol_data) are
omitted from the model. -/
structure Outcome where
  status_code : ℕ
  response_time_ms : ℚ
  body : String
  success : Bool
  error_message : String
deriving Repr, DecidableEq

/-- State of a _PythonEngine instance: the metrics dictionary plus the
keyed registries self.tcp_sockets and self.udp_sockets (dicts keyed by
the string host:port; only the key set matters to the model). -/
structure EngineState where
  metrics : Metrics
  tcpSockets : Finset String
  udpSockets : Finset String
deriving DecidableEq

/-- A freshly constructed engine: zero metrics, empty registries. -/
def EngineState.init : EngineState :=
  { metrics := Metrics.init, tcpSockets := ∅, udpSockets := ∅ }

/-- get_metrics returns a copy of the metrics dictionary. -/
def getMetrics (s : EngineState) : Metrics := s.metrics

/-- get_metrics as the Python dictionary it returns. -/
def getMetricsDict (s : EngineState) : List (String × ℚ) := metricsDict s.metrics

/-- reset_metrics (engine.py lines 178-188): replace the metrics
dictionary with the zero baseline in one assignment. The registries
are untouched. -/
def resetMetrics (s : EngineState) : EngineState :=
  { s with metrics := Metrics.init }

/-- Registry key f-string host:port used by the tcp and udp methods. -/
def sockKey (hostname : String) (port : ℕ) : String :=
  hostname ++ ":" ++ toString port

/-- Oracle for a try-block doing I/O: either every call returns, or
some call raises an exception whose str() is msg. -/
inductive Net where
  | ok
  | exn (msg : String)
deriving Repr, DecidableEq

/-- Oracle for execute_request: the requests.request call either
returns a response (status, measured elapsed ms, body) or raises. -/
inductive HttpWorld where
  | responds (status : ℕ) (rt : ℚ) (body : String)
  | raises (msg : String)
deriving Repr, DecidableEq

/-- execute_request of _PythonEngine (engine.py lines 109-172). -/
def executeRequest (w : HttpWorld) (s : EngineState) : Outcome × EngineState :=
  match w with
  | .responds status rt body =>
      ( { status_code := status
          response_time_ms := rt
          body := body
          success := status < 400
          error_message := if status < 400 then "" else "HTTP " ++ toString status }
      , { s with metrics := s.metrics.recordHttp status rt } )
  | .raises msg =>
      ( { status_code := 0, response_time_ms := 0, body := ""
          success := false, error_message := msg }
      , { s with metrics := s.metrics.recordFailure } )

/-- tcp_connect (engine.py lines 229-279): on success store the socket
under sockKey and record a success; on exception record a failure. -/
def tcpConnect (hostname : String) (port : ℕ) (rt : ℚ) (w : Net)
    (s : EngineState) : Outcome × EngineState :=
  match w with
  | .ok =>
      ( { status_code := 200, response_time_ms := rt
          body := "TCP connection established to " ++ sockKey hostname port
          success := true, error_message := "" }
      , { s with tcpSockets := insert (sockKey hostname port) s.tcpSockets
                 metrics := s.metrics.recordSuccess } )
  | .exn msg =>
      ( { status_code := 500, response_time_ms := 0, body := ""
          success := false, error_message := "TCP connection failed: " ++ msg }
      , { s with metrics := s.metrics.recordFailure } )

/-- tcp_send (engine.py lines 281-338): with no stored socket for the
key, return the no-connection outcome without touching metrics;
otherwise send (n bytes) or fail on exception. -/
def tcpSend (hostname : String) (port : ℕ) (rt : ℚ) (n : ℕ) (w : Net)
    (s : EngineState) : Outcome × EngineState :=
  if sockKey hostname port ∈ s.tcpSockets then
    match w with
    | .ok =>
        ( { status_code := 200, response_time_ms := rt
            body := "Sent " ++ toString n ++ " bytes to " ++ sockKey hostname port
            success := true, error_message := "" }
        , { s with metrics := s.metrics.recordSuccess } )
    | .exn msg =>
        ( { status_code := 500, response_time_ms := 0, body := ""
            success := false, error_message := "TCP send failed: " ++ msg }
        , { s with metrics := s.metrics.recordFailure } )
  else
    ( { status_code := 400, response_time_ms := 0, body := ""
        success := false
        error_message := "No active TCP connection - call tcp_connect first" }
    , s )

/-- tcp_receive (engine.py lines 340-398): same registry guard as
tcp_send; on success the body is the received data. -/
def tcpReceive (hostname : String) (port : ℕ) (rt : ℚ) (recvd : String)
    (w : Net) (s : EngineState) : Outcome × EngineState :=
  if sockKey hostname port ∈ s.tcpSockets then
    match w with
    | .ok =>
        ( { status_code := 200, response_time_ms := rt, body := recvd
            success := true, error_message := "" }
        , { s with metrics := s.metrics.recordSuccess } )
    | .exn msg =>
        ( { status_code := 500, response_time_ms := 0, body := ""
            success := false, error_message := "TCP receive failed: " ++ msg }
        , { s with metrics := s.metrics.recordFailure } )
  else
    ( { status_code := 400, response_time_ms := 0, body := ""
        success := false
        error_message := "No active TCP connection - call tcp_connect first" }
    , s )

/-- tcp_disconnect (engine.py lines 400-451): guard on the registry;
on success close the socket and delete the key; if close raises the
key stays (del is not reached) and a failure is recorded. -/
def tcpDisconnect (hostname : String) (port : ℕ) (rt : ℚ) (w : Net)
    (s : EngineState) : Outcome × EngineState :=
  if sockKey hostname port ∈ s.tcpSockets then
    match w with
    | .ok =>
        ( { status_code := 200, response_time_ms := rt
            body := "TCP connection to " ++ sockKey hostname port
                      ++ " closed successfully"
            success := true, error_message := "" }
        , { s with tcpSockets := s.tcpSockets.erase (sockKey hostname port)
                   metrics := s.metrics.recordSuccess } )
    | .exn msg =>
        ( { status_code := 500, response_time_ms := 0, body := ""
            success := false, error_message := "TCP disconnect failed: " ++ msg }
        , { s with metrics := s.metrics.recordFailure } )
  else
    ( { status_code := 400, response_time_ms := 0, body := ""
        success := false
        error_message := "No active TCP connection to disconnect" }
    , s )

/-- udp_create_endpoint (engine.py lines 454-502). -/
def udpCreateEndpoint (hostname : String) (port : ℕ) (rt : ℚ) (w : Net)
    (s : EngineState) : Outcome × EngineState :=
  match w with
  | .ok =>
      ( { status_code := 200, response_time_ms := rt
          body := "UDP endpoint created for " ++ sockKey hostname port
          success := true, error_message := "" }
      , { s with udpSockets := insert (sockKey hostname port) s.udpSockets
                 metrics := s.metrics.recordSuccess } )
  | .exn msg =>
      ( { status_code := 500, response_time_ms := 0, body := ""
          success := false
          error_message := "UDP endpoint creation failed: " ++ msg }
      , { s with metrics := s.metrics.recordFailure } )

/-- udp_send (engine.py lines 504-559): if the key has no endpoint,
first call udp_create_endpoint (its metric updates included); if that
fails return its result unchanged. Then send the datagram. -/
def udpSend (hostname : String) (port : ℕ) (rtc rt : ℚ) (n : ℕ)
    (wc w : Net) (s : EngineState) : Outcome × EngineState :=
  let sendPart : EngineState → Outcome × EngineState := fun s1 =>
    match w with
    | .ok =>
        ( { status_code := 200, response_time_ms := rt
            body := "Sent " ++ toString n ++ " bytes to "
                      ++ sockKey hostname port ++ " via UDP"
            success := true, error_message := "" }
        , { s1 with metrics := s1.metrics.recordSuccess } )
    | .exn msg =>
        ( { status_code := 500, response_time_ms := 0, body := ""
            success := false, error_message := "UDP send failed: " ++ msg }
        , { s1 with metrics := s1.metrics.recordFailure } )
  if sockKey hostname port ∈ s.udpSockets then sendPart s
  else
    let cr := udpCreateEndpoint hostname port rtc wc s
    if cr.1.success then sendPart cr.2 else cr

/-- udp_receive (engine.py lines 561-621): with no endpoint for the
key, return the no-endpoint outcome without touching metrics. -/
def udpReceive (hostname : String) (port : ℕ) (rt : ℚ) (nbytes : ℕ)
    (sender : String) (w : Net) (s : EngineState) : Outcome × EngineState :=
  if sockKey hostname port ∈ s.udpSockets then
    match w with
    | .ok =>
        ( { status_code := 200, response_time_ms := rt
            body := "Received " ++ toString nbytes ++ " bytes from "
                      ++ sender ++ " via UDP"
            success := true, error_message := "" }
        , { s with metrics := s.metrics.recordSuccess } )
    | .exn msg =>
        ( { status_code := 500, response_time_ms := 0, body := ""
            success := false, error_message := "UDP receive failed: " ++ msg }
        , { s with metrics := s.metrics.recordFailure } )
  else
    ( { status_code := 400, response_time_ms := 0, body := ""
        success := false
        error_message := "No UDP endpoint available - call udp_create_endpoint first" }
    , s )

/-- udp_close_endpoint (engine.py lines 623-674). -/
def udpCloseEndpoint (hostname : String) (port : ℕ) (rt : ℚ) (w : Net)
    (s : EngineState) : Outcome × EngineState :=
  if sockKey hostname port ∈ s.udpSockets then
    match w with
    | .ok =>
        ( { status_code := 200, response_time_ms := rt
            body := "UDP endpoint for " ++ sockKey hostname port
                      ++ " closed successfully"
            success := true, error_message := "" }
        , { s with udpSockets := s.udpSockets.erase (sockKey hostname port)
                   metrics := s.metrics.recordSuccess } )
    | .exn msg =>
        ( { status_code := 500, response_time_ms := 0, body := ""
            success := false
            error_message := "UDP endpoint closure failed: " ++ msg }
        , { s with metrics := s.metrics.recordFailure } )
  else
    ( { status_code := 400, response_time_ms := 0, body := ""
        success := false, error_message := "No UDP endpoint to close" }
    , s )

/-- The shared shape of the five mqtt_* fallback methods (engine.py
lines 677-878): the try-block only simulates, records a success and
builds a 200 outcome with the given body; the except path records a
failure with the given prefix. -/
def mqttOp (rt : ℚ) (okBody : String) (failPrefix : String) (w : Net)
    (s : EngineState) : Outcome × EngineState :=
  match w with
  | .ok =>
      ( { status_code := 200, response_time_ms := rt, body := okBody
          success := true, error_message := "" }
      , { s with metrics := s.metrics.recordSuccess } )
  | .exn msg =>
      ( { status_code := 500, response_time_ms := 0, body := ""
          success := false, error_message := failPrefix ++ msg }
      , { s with metrics := s.metrics.recordFailure } )

/-- mqtt_connect (engine.py lines 677-716). -/
def mqttConnect (host : String) (port : ℕ) (rt : ℚ) (w : Net)
    (s : EngineState) : Outcome × EngineState :=
  mqttOp rt
    ("MQTT connection established to " ++ sockKey host port ++ " (Python fallback)")
    "MQTT connection failed: " w s

/-- mqtt_publish (engine.py lines 718-758). -/
def mqttPublish (topic : String) (rt : ℚ) (w : Net)
    (s : EngineState) : Outcome × EngineState :=
  mqttOp rt ("MQTT message published to " ++ topic ++ " (Python fallback)")
    "MQTT publish failed: " w s

/-- mqtt_subscribe (engine.py lines 760-798). -/
def mqttSubscribe (topic : String) (rt : ℚ) (w : Net)
    (s : EngineState) : Outcome × EngineState :=
  mqttOp rt ("MQTT subscribed to " ++ topic ++ " (Python fallback)")
    "MQTT subscribe failed: " w s

/-- mqtt_unsubscribe (engine.py lines 800-837). -/
def mqttUnsubscribe (topic : String) (rt : ℚ) (w : Net)
    (s : EngineState) : Outcome × EngineState :=
  mqttOp rt ("MQTT unsubscribed from " ++ topic ++ " (Python fallback)")
    "MQTT unsubscribe failed: " w s

/-- mqtt_disconnect (engine.py lines 839-878). -/
def mqttDisconnect (host : String) (port : ℕ) (rt : ℚ) (w : Net)
    (s : EngineState) : Outcome × EngineState :=
  mqttOp rt
    ("MQTT disconnected from " ++ sockKey host port ++ " (Python fallback)")
    "MQTT disconnect failed: " w s

/-- One engine operation together with the oracle data describing what
the outside world does during it. -/
inductive EngineOp where
  | http (w : HttpWorld)
  | tcpConnect (h : String) (p : ℕ) (rt : ℚ) (w : Net)
  | tcpSend (h : String) (p : ℕ) (rt : ℚ) (n : ℕ) (w : Net)
  | tcpReceive (h : String) (p : ℕ) (rt : ℚ) (recvd : String) (w : Net)
  | tcpDisconnect (h : String) (p : ℕ) (rt : ℚ) (w : Net)
  | udpCreate (h : String) (p : ℕ) (rt : ℚ) (w : Net)
  | udpSend (h : String) (p : ℕ) (rtc rt : ℚ) (n : ℕ) (wc w : Net)
  | udpReceive (h : String) (p : ℕ) (rt : ℚ) (nbytes : ℕ) (sender : String) (w : Net)
  | udpClose (h : String) (p : ℕ) (rt : ℚ) (w : Net)
  | mqttConnect (host : String) (port : ℕ) (rt : ℚ) (w : Net)
  | mqttPublish (topic : String) (rt : ℚ) (w : Net)
  | mqttSubscribe (topic : String) (rt : ℚ) (w : Net)
  | mqttUnsubscribe (topic : String) (rt : ℚ) (w : Net)
  | mqttDisconnect (host : String) (port : ℕ) (rt : ℚ) (w : Net)

/-- Dispatch one operation against the engine state. -/
def step (s : EngineState) : EngineOp → Outcome × EngineState
  | .http w => executeRequest w s
  | .tcpConnect h p rt w => tcpConnect h p rt w s
  | .tcpSend h p rt n w => tcpSend h p rt n w s
  | .tcpReceive h p rt recvd w => tcpReceive h p rt recvd w s
  | .tcpDisconnect h p rt w => tcpDisconnect h p rt w s
  | .udpCreate h p rt w => udpCreateEndpoint h p rt w s
  | .udpSend h p rtc rt n wc w => udpSend h p rtc rt n wc w s
  | .udpReceive h p rt nb sender w => udpReceive h p rt nb sender w s
  | .udpClose h p rt w => udpCloseEndpoint h p rt w s
  | .mqttConnect host port rt w => mqttConnect host port rt w s
  | .mqttPublish topic rt w => mqttPublish topic rt w s
  | .mqttSubscribe topic rt w => mqttSubscribe topic rt w s
  | .mqttUnsubscribe topic rt w => mqttUnsubscribe topic rt w s
  | .mqttDisconnect host port rt w => mqttDisconnect host port rt w s

/-- Run a sequence of operations from a state. -/
def runOps (s : EngineState) : List EngineOp → EngineState
  | [] => s
  | op :: rest => runOps (step s op).2 rest

/-- The metrics invariant of the specification. -/
def metricsInv (m : Metrics) : Prop :=
  m.total_requests = m.successful_requests + m.failed_requests

/-- One call of DataDistributor.get_data_for_user under
DataStrategy.UNIQUE (data_sources.py lines 160-194): raise when the
row count is zero; raise when every row has been handed out
(len(used_indices) >= data_count); otherwise take the smallest unused
index (min over set(range(data_count)) - used_indices, realised here
as the first unused element of the ascending range), add it to
used_indices and return it. Only the index bookkeeping is modelled:
the returned row is data[index]. The final error branch is
unreachable (see uniqueGet_ok below); in Python it would be the
ValueError of min over an empty set. -/
def uniqueGet (dataCount : ℕ) (used : Finset ℕ) :
    Except String (ℕ × Finset ℕ) :=
  if dataCount = 0 then .error "No data available"
  else if dataCount ≤ used.card then .error "No more unique data available"
  else
    match (List.range dataCount).find? (fun i => decide (i ∉ used)) with
    | some i => .ok (i, insert i used)
    | none => .error "No more unique data available"

/-- The trace of k successive get_data_for_user calls on a distributor
created with an empty used_indices set: the list of outcomes (a row
index or the raised error) and the final used_indices set. -/
def uniqueRun (dataCount : ℕ) : ℕ → List (Except String ℕ) × Finset ℕ
  | 0 => ([], ∅)
  | k + 1 =>
      let r := uniqueRun dataCount k
      match uniqueGet dataCount r.2 with
      | .ok (i, used2) => (r.1 ++ [.ok i], used2)
      | .error e => (r.1 ++ [.error e], r.2)

/-- The row index of a successful call, none for a raised error. -/
def exceptIndex : Except String ℕ → Option ℕ
  | .ok i => some i
  | .error _ => none

/-- The fields of the response dictionary read by the per-response
assertion classes. -/
structure Response where
  status_code : ℤ
  response_time_us : ℚ
  body : String
  headers : String

/-- A per-response assertion: its check function and its
get_error_message function. -/
structure RAssertion where
  check : Response → Bool
  errMsg : Response → String

/-- StatusCodeAssertion (assertions.py lines 31-44). The message
argument defaults to the empty string; Python self.message or default
picks the default exactly when the message is empty. -/
def statusCodeAssertion (expected : ℤ) (message : String) : RAssertion :=
  { check := fun r => decide (r.status_code = expected)
    errMsg := fun r =>
      if message = "" then
        "Expected status " ++ toString expected ++ ", got " ++ toString r.status_code
      else message }

/-- ResponseTimeAssertion (assertions.py lines 47-61):
response_time_us / 1000 must not exceed max_time_ms. -/
def responseTimeAssertion (maxTimeMs : ℚ) (message : String) : RAssertion :=
  { check := fun r => decide (r.response_time_us / 1000 ≤ maxTimeMs)
    errMsg := fun r =>
      if message = "" then
        "Response time " ++ toString (r.response_time_us / 1000)
          ++ "ms exceeded limit " ++ toString maxTimeMs ++ "ms"
      else message }

/-- CustomAssertion (assertions.py lines 199-213): the user callback
may raise (modelled by Option, none standing for an exception); check
catches every exception and returns False. -/
def customAssertion (f : Response → Option Bool) (message : String) : RAssertion :=
  { check := fun r => (f r).getD false
    errMsg := fun _ =>
      if message = "" then "Custom assertion failed" else message }

/-- AssertionGroup (assertions.py lines 216-257): a logic string
(upper-cased at construction) and the list of added assertions. -/
structure AssertionGroup where
  logic : String
  assertions : List RAssertion

/-- AssertionGroup.check_all (assertions.py lines 229-246): one pass
over all assertions in order, recording every failure together with
its error message, then combining all collected results with AND
(all) or OR (any); an unknown logic string raises ValueError,
modelled as none. -/
def checkAll (g : AssertionGroup) (r : Response) :
    Option (Bool × List (RAssertion × String)) :=
  let failed := g.assertions.filterMap
    (fun a => if a.check r then none else some (a, a.errMsg r))
  let results := g.assertions.map (fun a => a.check r)
  if g.logic = "AND" then some (results.all id, failed)
  else if g.logic = "OR" then some (results.any id, failed)
  else none

/-- An aggregate performance assertion: its check_metrics function and
its get_metrics_error_message function, both over the metrics
dictionary (string keys, numeric values, read with .get defaults). -/
structure PerformanceAssertion where
  checkMetrics : List (String × ℚ) → Bool
  errMsg : List (String × ℚ) → String

/-- ThroughputAssertion (performance_assertions.py lines 34-48). -/
def throughputAssertion (minRps : ℚ) (message : String) : PerformanceAssertion :=
  { checkMetrics := fun m => decide (getQ m "requests_per_second" 0 ≥ minRps)
    errMsg := fun m =>
      if message = "" then
        "Throughput " ++ toString (getQ m "requests_per_second" 0)
          ++ " RPS is below minimum " ++ toString minRps ++ " RPS"
      else message }

/-- ErrorRateAssertion (performance_assertions.py lines 68-95): with
zero total requests the check passes; otherwise the failure
percentage must not exceed the limit. -/
def errorRateAssertion (maxErrorRate : ℚ) (message : String) : PerformanceAssertion :=
  { checkMetrics := fun m =>
      let total := getQ m "total_requests" 0
      let failed := getQ m "failed_requests" 0
      if total = 0 then true
      else decide (failed / total * 100 ≤ maxErrorRate)
    errMsg := fun m =>
      let total := getQ m "total_requests" 0
      let failed := getQ m "failed_requests" 0
      let rate := if total = 0 then 0 else failed / total * 100
      if message = "" then
        "Error rate " ++ toString rate ++ "% exceeds limit "
          ++ toString maxErrorRate ++ "%"
      else message }

/-- SuccessRateAssertion (performance_assertions.py lines 117-144):
with zero total requests the check passes; otherwise the success
percentage must reach the minimum. -/
def successRateAssertion (minSuccessRate : ℚ) (message : String) : PerformanceAssertion :=
  { checkMetrics := fun m =>
      let total := getQ m "total_requests" 0
      let succ1 := getQ m "successful_requests" 0
      if total = 0 then true
      else decide (succ1 / total * 100 ≥ minSuccessRate)
    errMsg := fun m =>
      let total := getQ m "total_requests" 0
      let succ1 := getQ m "successful_requests" 0
      let rate := if total = 0 then 100 else succ1 / total * 100
      if message = "" then
        "Success rate " ++ toString rate ++ "% is below minimum "
          ++ toString minSuccessRate ++ "%"
      else message }

/-- TotalRequestsAssertion (performance_assertions.py lines 147-161):
total_requests must be at least min_requests. -/
def totalRequestsAssertion (minRequests : ℤ) (message : String) : PerformanceAssertion :=
  { checkMetrics := fun m => decide (getQ m "total_requests" 0 ≥ (minRequests : ℚ))
    errMsg := fun m =>
      if message = "" then
        "Total requests " ++ toString (getQ m "total_requests" 0)
          ++ " is below minimum " ++ toString minRequests
      else message }

/-- CustomPerformanceAssertion (performance_assertions.py lines
164-178): same exception-catching shape as CustomAssertion. -/
def customPerformanceAssertion (f : List (String × ℚ) → Option Bool)
    (message : String) : PerformanceAssertion :=
  { checkMetrics := fun m => (f m).getD false
    errMsg := fun _ =>
      if message = "" then "Custom performance assertion failed" else message }

/-- PerformanceAssertionGroup (performance_assertions.py lines
181-222). -/
structure PerformanceAssertionGroup where
  logic : String
  assertions : List PerformanceAssertion

/-- PerformanceAssertionGroup.check_all_metrics
(performance_assertions.py lines 194-211): identical structure to
AssertionGroup.check_all. -/
def checkAllMetrics (g : PerformanceAssertionGroup) (m : List (String × ℚ)) :
    Option (Bool × List (PerformanceAssertion × String)) :=
  let failed := g.assertions.filterMap
    (fun a => if a.checkMetrics m then none else some (a, a.errMsg m))
  let results := g.assertions.map (fun a => a.checkMetrics m)
  if g.logic = "AND" then some (results.all id, failed)
  else if g.logic = "OR" then some (results.any id, failed)
  else none

/-- A value in the generic data compartment of a SessionStore (written
by SessionStore.set): the program stores strings there (configured
header names) and floats (token expiry timestamps, written by
set_token). -/
inductive SVal where
  | str (s : String)
  | num (q : ℚ)
deriving Repr, DecidableEq

/-- Lookup in the data compartment (SessionStore.get). -/
def lookupVal (m : List (String × SVal)) (k : String) : Option SVal :=
  match m with
  | [] => none
  | (k1, v) :: rest => if k1 = k then some v else lookupVal rest k

/-- The compartments of a SessionStore read by
prepare_request_headers: the generic data dict, the cookie dict and
the token dict, each in insertion order. -/
structure SessionStore where
  data : List (String × SVal)
  cookies : List (String × String)
  tokens : List (String × String)

/-- SessionStore.is_token_expired (session_manager.py lines 99-105):
with no stored expiry the token is not expired; a numeric expiry is
compared against the current time; comparing the time against a
non-numeric stored expiry raises TypeError in Python, modelled as
none. -/
def isTokenExpired (st : SessionStore) (now : ℚ) (tokenType : String) :
    Option Bool :=
  match lookupVal st.data ("_token_expires_" ++ tokenType) with
  | none => some false
  | some (.num e) => some (decide (e < now))
  | some (.str _) => none

/-- session.get(key, default) where the result is used as a header
name: a stored string is used as is; a stored number would become a
non-string dict key in Python and is represented by its printed form
(never exercised by the claims). -/
def getDataStr (st : SessionStore) (k deflt : String) : String :=
  match lookupVal st.data k with
  | some (.str s) => s
  | some (.num q) => toString q
  | none => deflt

/-- Python str.title() restricted to ASCII, used for the default
custom token header name: the first letter of each run of letters is
upper-cased and the following letters are lower-cased. -/
def pyTitleAux : Bool → List Char → List Char
  | _, [] => []
  | prevAlpha, c :: rest =>
      if c.isAlpha then
        (if prevAlpha then c.toLower else c.toUpper) :: pyTitleAux true rest
      else
        c :: pyTitleAux false rest

/-- Python str.title() on a string. -/
def pyTitle (s : String) : String := ⟨pyTitleAux false s.data⟩

/-- The joined cookie header value built at session_manager.py line
332: name=value pairs joined by a semicolon and a space, in dict
insertion order. -/
def joinCookies (cookies : List (String × String)) : String :=
  String.intercalate "; " (cookies.map (fun p => p.1 ++ "=" ++ p.2))

/-- The final loop of prepare_request_headers (session_manager.py
lines 349-353): every token whose type is neither bearer nor api_key
and whose expiry check passes is written into the headers under its
configured header name (session data key type_header) or the default
X-Type-Token name, overwriting any existing value. -/
def addTokenHeaders (st : SessionStore) (now : ℚ) :
    List (String × String) → List (String × String) →
      Option (List (String × String))
  | [], headers => some headers
  | (tokenType, tokenValue) :: rest, headers =>
      if tokenType = "bearer" ∨ tokenType = "api_key" then
        addTokenHeaders st now rest headers
      else
        match isTokenExpired st now tokenType with
        | none => none
        | some true => addTokenHeaders st now rest headers
        | some false =>
            addTokenHeaders st now rest
              (dictSet headers
                (getDataStr st (tokenType ++ "_header")
                  ("X-" ++ pyTitle tokenType ++ "-Token"))
                tokenValue)

/-- SessionManager.prepare_request_headers (session_manager.py lines
323-355) for the session of one user: start from a copy of the base
headers; if the session has cookies, append the joined cookie string
to an existing Cookie header (base value first, separated by a
semicolon and space) or set it; overwrite Authorization with
Bearer token when a non-empty, non-expired bearer token exists;
overwrite the api-key header (session data api_key_header, default
X-API-Key) when a non-empty api_key token exists (no expiry check);
finally add the remaining token headers. none models a TypeError
escaping from an expiry comparison. -/
def prepareRequestHeaders (st : SessionStore) (now : ℚ)
    (base : List (String × String)) : Option (List (String × String)) :=
  let headers := base
  let headers :=
    if st.cookies = [] then headers
    else
      match lookupKey headers "Cookie" with
      | some v => dictSet headers "Cookie" (v ++ "; " ++ joinCookies st.cookies)
      | none => dictSet headers "Cookie" (joinCookies st.cookies)
  let afterBearer : Option (List (String × String)) :=
    match lookupKey st.tokens "bearer" with
    | some t =>
        if t = "" then some headers
        else
          match isTokenExpired st now "bearer" with
          | none => none
          | some true => some headers
          | some false => some (dictSet headers "Authorization" ("Bearer " ++ t))
    | none => some headers
  match afterBearer with
  | none => none
  | some headers2 =>
      let headers3 :=
        match lookupKey st.tokens "api_key" with
        | some a =>
            if a = "" then headers2
            else dictSet headers2 (getDataStr st "api_key_header" "X-API-Key") a
        | none => headers2
      addTokenHeaders st now st.tokens headers3

/-- Association-list lookup for the user-data map (source name to
row) and for a row (column name to value). A row value is None
(none) or its str() rendering (some), which is all replace_var uses
of it. -/
def alistLookup {α : Type} (m : List (String × α)) (k : String) : Option α :=
  match m with
  | [] => none
  | (k1, v) :: rest => if k1 = k then some v else alistLookup rest k

/-- Scan to the first closing brace: the characters before it and the
characters after it, none when no closing brace follows. This is the
greedy-but-bounded name part of the placeholder regex, which cannot
cross a closing brace. -/
def splitAtBrace : List Char → Option (List Char × List Char)
  | [] => none
  | c :: rest =>
      if c = '\x7d' then some ([], rest)
      else (splitAtBrace rest).map (fun p => (c :: p.1, p.2))

/-- Scan to the first dot, mirroring var_name.split(chr(46), 1):
none when the name has no dot. -/
def splitFirstDot : List Char → Option (List Char × List Char)
  | [] => none
  | c :: rest =>
      if c = '.' then some ([], rest)
      else (splitFirstDot rest).map (fun p => (c :: p.1, p.2))

/-- The data-source branch of replace_var (scenarios.py lines
179-184): with a non-empty user-data map and a dotted name, split at
the first dot; when the source exists in the map and the field exists
in its row, the replacement is str(value), the empty string for a
None value. -/
def dottedLookup (userData : List (String × List (String × Option String)))
    (name : String) : Option String :=
  if userData = [] then none
  else
    match splitFirstDot name.data with
    | none => none
    | some (src, fld) =>
        match alistLookup userData (String.mk src) with
        | none => none
        | some row =>
            match alistLookup row (String.mk fld) with
            | none => none
            | some v => some (v.getD "")

/-- replace_var (scenarios.py lines 176-191): resolve a dotted
source.field name against the user data first; only if that fails,
resolve the whole name against the scenario variables (whose values
are already str()-rendered); otherwise return the placeholder
unchanged. -/
def replaceVar (userData : List (String × List (String × Option String)))
    (vars : List (String × String)) (name : String) : String :=
  match dottedLookup userData name with
  | some r => r
  | none =>
      match lookupKey vars name with
      | some v => v
      | none => "$\x7b" ++ name ++ "\x7d"

/-- One left-to-right pass of re.sub with the placeholder pattern over
the character list: at a dollar immediately followed by an opening
brace, when a closing brace follows and the name between the braces
is non-empty, emit the replacement for the name and continue after
the closing brace (the replacement is not rescanned); in every other
case emit the character and move one position on. -/
def substChars (rv : String → String) (l : List Char) : List Char :=
  match l with
  | [] => []
  | c :: rest =>
      if c = '$' then
        match rest with
        | c2 :: rest2 =>
            if c2 = '\x7b' then
              match hsb : splitAtBrace rest2 with
              | some (name, after) =>
                  if name = [] then c :: substChars rv (c2 :: rest2)
                  else (rv (String.mk name)).data ++ substChars rv after
              | none => c :: substChars rv (c2 :: rest2)
            else c :: substChars rv (c2 :: rest2)
        | [] => [c]
      else c :: substChars rv rest
termination_by l.length
decreasing_by
  all_goals simp_wf
  have key : ∀ (l2 n a : List Char),
      splitAtBrace l2 = some (n, a) → a.length < l2.length := by
    intro l2
    induction l2 with
    | nil => intro n a h; simp [splitAtBrace] at h
    | cons c3 r3 ih =>
        intro n a h
        by_cases hc : c3 = '\x7d'
        · simp only [splitAtBrace, if_pos hc, Option.some.injEq, Prod.mk.injEq] at h
          rw [← h.2]
          simp
        · cases hsp : splitAtBrace r3 with
          | none =>
              simp only [splitAtBrace, if_neg hc, hsp, Option.map_none'] at h
              exact absurd h (by simp)
          | some p =>
              have hlt := ih p.1 p.2 (by rw [hsp])
              simp only [splitAtBrace, if_neg hc, hsp, Option.map_some',
                Option.some.injEq, Prod.mk.injEq] at h
              rw [← h.2]
              simp
              omega
  have := key _ _ _ hsb
  omega

/-- Scenario._substitute_variables (scenarios.py lines 171-193):
empty text is returned as is; otherwise every placeholder occurrence
is replaced by replace_var. -/
def substituteVariables (userData : List (String × List (String × Option String)))
    (vars : List (String × String)) (text : String) : String :=
  if text = "" then text
  else String.mk (substChars (replaceVar userData vars) text.data)

/-- An HTTPRequest of a scenario (scenarios.py lines 45-66). -/
structure HTTPRequest where
  url : String
  method : String
  headers : List (String × String)
  body : String
  timeout_ms : ℕ

/-- Scenario._process_request (scenarios.py lines 160-169):
substitute variables in the url, the body and each header value;
method, header names and the timeout pass through unchanged. -/
def processRequest (userData : List (String × List (String × Option String)))
    (vars : List (String × String)) (r : HTTPRequest) : HTTPRequest :=
  { url := substituteVariables userData vars r.url
    method := r.method
    headers := r.headers.map (fun p => (p.1, substituteVariables userData vars p.2))
    body := substituteVariables userData vars r.body
    timeout_ms := r.timeout_ms }

theorem metricsInv_recordSuccess {m : Metrics} (h : metricsInv m) :
    metricsInv m.recordSuccess := by
  simp only [metricsInv, Metrics.recordSuccess] at h ⊢
  omega

theorem metricsInv_recordFailure {m : Metrics} (h : metricsInv m) :
    metricsInv m.recordFailure := by
  simp only [metricsInv, Metrics.recordFailure] at h ⊢
  omega

theorem metricsInv_recordHttp {m : Metrics} (h : metricsInv m)
    (status : ℕ) (rt : ℚ) : metricsInv (m.recordHttp status rt) := by
  simp only [metricsInv, Metrics.recordHttp] at h ⊢
  split_ifs <;> simp_all <;> omega

theorem step_metricsInv (s : EngineState) (op : EngineOp)
    (h : metricsInv s.metrics) : metricsInv ((step s op).2).metrics := by
  cases op <;>
    simp only [step, executeRequest, tcpConnect, tcpSend, tcpReceive,
      tcpDisconnect, udpCreateEndpoint, udpSend, udpReceive,
      udpCloseEndpoint, mqttConnect, mqttPublish, mqttSubscribe,
      mqttUnsubscribe, mqttDisconnect, mqttOp] <;>
    repeat' split
  all_goals
    simp_all only []
  all_goals
    first
      | exact h
      | exact metricsInv_recordSuccess h
      | exact metricsInv_recordFailure h
      | exact metricsInv_recordHttp h _ _
      | exact metricsInv_recordSuccess (metricsInv_recordSuccess h)
      | exact metricsInv_recordFailure (metricsInv_recordSuccess h)
      | (exfalso; simp_all)

/-- Claim C1: every engine operation that records an outcome
(execute_request on both its success and exception paths, and the
tcp, udp and mqtt operations) preserves the metrics invariant: after
any sequence of operations, the metrics returned by get_metrics
satisfy total_requests = successful_requests + failed_requests. -/
theorem engine_metrics_invariant (ops : List EngineOp) :
    (getMetrics (runOps EngineState.init ops)).total_requests
      = (getMetrics (runOps EngineState.init ops)).successful_requests
        + (getMetrics (runOps EngineState.init ops)).failed_requests := by
  have main : ∀ (l : List EngineOp) (s : EngineState),
      metricsInv s.metrics → metricsInv (runOps s l).metrics := by
    intro l
    induction l with
    | nil => intro s hs; exact hs
    | cons op rest ih =>
        intro s hs
        exact ih _ (step_metricsInv s op hs)
  exact main ops EngineState.init rfl

/-- Claim C6: tcp_send, tcp_receive and tcp_disconnect on a host:port
key that is not in the connection registry (in particular after a
tcp_disconnect removed it) return success := false with the engine's
no-connection error message and leave the state unchanged, and
udp_receive on a key with no endpoint returns success := false with
the no-endpoint error message; a successful tcp_disconnect or
udp_close_endpoint removes the key from its registry. -/
theorem no_connection_errors
    (s : EngineState) (h : String) (p : ℕ) (rt : ℚ) (n nb : ℕ)
    (recvd sender : String) (w : Net)
    (htcp : sockKey h p ∉ s.tcpSockets)
    (hudp : sockKey h p ∉ s.udpSockets) :
    tcpSend h p rt n w s
      = ( { status_code := 400, response_time_ms := 0, body := ""
            success := false
            error_message := "No active TCP connection - call tcp_connect first" }
        , s )
  ∧ tcpReceive h p rt recvd w s
      = ( { status_code := 400, response_time_ms := 0, body := ""
            success := false
            error_message := "No active TCP connection - call tcp_connect first" }
        , s )
  ∧ tcpDisconnect h p rt w s
      = ( { status_code := 400, response_time_ms := 0, body := ""
            success := false
            error_message := "No active TCP connection to disconnect" }
        , s )
  ∧ udpReceive h p rt nb sender w s
      = ( { status_code := 400, response_time_ms := 0, body := ""
            success := false
            error_message := "No UDP endpoint available - call udp_create_endpoint first" }
        , s )
  ∧ (∀ s2 : EngineState,
        sockKey h p ∉ ((tcpDisconnect h p rt Net.ok s2).2).tcpSockets)
  ∧ (∀ s2 : EngineState,
        sockKey h p ∉ ((udpCloseEndpoint h p rt Net.ok s2).2).udpSockets) := by
  refine ⟨?_, ?_, ?_, ?_, ?_, ?_⟩
  · simp [tcpSend, htcp]
  · simp [tcpReceive, htcp]
  · simp [tcpDisconnect, htcp]
  · simp [udpReceive, hudp]
  · intro s2
    by_cases hk : sockKey h p ∈ s2.tcpSockets
    · simp [tcpDisconnect, hk]
    · simp [tcpDisconnect, hk]
  · intro s2
    by_cases hk : sockKey h p ∈ s2.udpSockets
    · simp [udpCloseEndpoint, hk]
    · simp [udpCloseEndpoint, hk]

/-- Witness for no_connection_errors at a concrete fresh engine. -/
theorem no_connection_errors_witness :
    (sockKey "localhost" 9000 ∉ EngineState.init.tcpSockets)
  ∧ (sockKey "localhost" 9000 ∉ EngineState.init.udpSockets)
  ∧ (tcpSend "localhost" 9000 0 4 Net.ok EngineState.init).1.error_message
      = "No active TCP connection - call tcp_connect first"
  ∧ (udpReceive "localhost" 9000 0 4 "peer" Net.ok EngineState.init).1.error_message
      = "No UDP endpoint available - call udp_create_endpoint first" := by
  have H := no_connection_errors EngineState.init "localhost" 9000 0 4 4 "x" "peer"
    Net.ok (by simp [EngineState.init]) (by simp [EngineState.init])
  exact ⟨by simp [EngineState.init], by simp [EngineState.init],
    by rw [H.1], by rw [H.2.2.2.1]⟩

/-- Claim C7 counterexample: the dictionary returned by get_metrics
after reset_metrics has no started_at key at all (the engine metrics
dictionary only ever holds the seven counter keys), so it cannot
report started_at equal to the reset time. -/
theorem reset_metrics_no_started_at :
    lookupQ (getMetricsDict (resetMetrics
        (executeRequest (HttpWorld.responds 200 5 "ok") EngineState.init).2))
      "started_at" = none := by
  rfl

/-- Claim C7 (amended): after reset_metrics, the next get_metrics
reports every counter (total_requests, successful_requests,
failed_requests, total/min/max response time, requests_per_second)
equal to zero, all replaced together by one assignment of the zero
baseline dictionary; that dictionary contains no started_at key. -/
theorem reset_metrics_zeroes (s : EngineState) :
    getMetricsDict (resetMetrics s)
      = [ ("total_requests", 0)
        , ("successful_requests", 0)
        , ("failed_requests", 0)
        , ("total_response_time_ms", 0)
        , ("min_response_time_ms", 0)
        , ("max_response_time_ms", 0)
        , ("requests_per_second", 0) ]
  ∧ lookupQ (getMetricsDict (resetMetrics s)) "started_at" = none := by
  constructor
  · simp [getMetricsDict, resetMetrics, metricsDict, Metrics.init]
  · rfl

/-- Claim C9: udp_send on a host:port key with no existing endpoint
does not fail with the missing-endpoint error; it implicitly creates
the endpoint and then sends, failing only when the implicit creation
or the send itself fails. -/
theorem udp_send_auto_creates
    (s : EngineState) (h : String) (p : ℕ) (rtc rt : ℚ) (n : ℕ) (msg : String)
    (hk : sockKey h p ∉ s.udpSockets) :
    udpSend h p rtc rt n (Net.exn msg) Net.ok s
      = udpCreateEndpoint h p rtc (Net.exn msg) s
  ∧ (udpSend h p rtc rt n Net.ok Net.ok s).1.success = true
  ∧ sockKey h p ∈ ((udpSend h p rtc rt n Net.ok Net.ok s).2).udpSockets
  ∧ (udpSend h p rtc rt n Net.ok (Net.exn msg) s).1
      = { status_code := 500, response_time_ms := 0, body := ""
          success := false, error_message := "UDP send failed: " ++ msg }
  ∧ (∀ wc w : Net,
      (udpSend h p rtc rt n wc w s).1.status_code ≠ 400
      ∧ (udpSend h p rtc rt n wc w s).1.error_message
          ≠ "No UDP endpoint available - call udp_create_endpoint first") := by
  refine ⟨?_, ?_, ?_, ?_, ?_⟩
  · simp [udpSend, udpCreateEndpoint, hk]
  · simp [udpSend, udpCreateEndpoint, hk]
  · simp [udpSend, udpCreateEndpoint, hk]
  · simp [udpSend, udpCreateEndpoint, hk]
  · intro wc w
    cases wc <;> cases w <;>
      simp [udpSend, udpCreateEndpoint, hk] <;>
      intro heq <;>
      have hd := congrArg (fun t : String => t.data.head?) heq <;>
      simp [String.data_append] at hd

/-- Witness for udp_send_auto_creates at a concrete fresh engine. -/
theorem udp_send_auto_creates_witness :
    (sockKey "localhost" 5353 ∉ EngineState.init.udpSockets)
  ∧ (udpSend "localhost" 5353 0 0 4 Net.ok Net.ok EngineState.init).1.success = true
  ∧ sockKey "localhost" 5353
      ∈ ((udpSend "localhost" 5353 0 0 4 Net.ok Net.ok EngineState.init).2).udpSockets := by
  have H := udp_send_auto_creates EngineState.init "localhost" 5353 0 0 4 "boom"
    (by simp [EngineState.init])
  exact ⟨by simp [EngineState.init], H.2.1, H.2.2.1⟩

theorem findRangeMin (N j : ℕ) (hj : j < N) :
    (List.range N).find? (fun i => decide (i ∉ Finset.range j)) = some j := by
  induction N with
  | zero => omega
  | succ N ih =>
      rw [List.range_succ, List.find?_append]
      rcases Nat.lt_or_ge j N with hlt | hge
      · rw [ih hlt]
        rfl
      · have hjN : j = N := by omega
        subst hjN
        have hnone : (List.range j).find? (fun i => decide (i ∉ Finset.range j)) = none := by
          rw [List.find?_eq_none]
          intro x hx
          simp only [List.mem_range] at hx
          simp [Finset.mem_range, hx]
        rw [hnone]
        simp [List.find?, Finset.mem_range]

theorem uniqueGet_ok (N j : ℕ) (hj : j < N) :
    uniqueGet N (Finset.range j) = .ok (j, Finset.range (j + 1)) := by
  unfold uniqueGet
  have h0 : ¬ N = 0 := by omega
  have h1 : ¬ N ≤ (Finset.range j).card := by
    rw [Finset.card_range]
    omega
  rw [if_neg h0, if_neg h1, findRangeMin N j hj]
  rw [Finset.range_succ]

theorem uniqueRun_le (N k : ℕ) (hk : k ≤ N) :
    uniqueRun N k = ((List.range k).map Except.ok, Finset.range k) := by
  induction k with
  | zero => rfl
  | succ k ih =>
      have hkN : k < N := by omega
      rw [uniqueRun, ih (by omega), uniqueGet_ok N k hkN]
      rw [List.range_succ, List.map_append]
      rfl

theorem uniqueGet_exhausted (N : ℕ) (hN : 0 < N) :
    uniqueGet N (Finset.range N) = .error "No more unique data available" := by
  unfold uniqueGet
  rw [if_neg (by omega), if_pos (by rw [Finset.card_range])]

theorem uniqueRun_ge (N k : ℕ) (hN : 0 < N) (hk : N ≤ k) :
    uniqueRun N k
      = ( (List.range N).map Except.ok
            ++ List.replicate (k - N) (Except.error "No more unique data available")
        , Finset.range N ) := by
  induction k with
  | zero => omega
  | succ k ih =>
      rcases Nat.lt_or_ge k N with hlt | hge
      · have hkN : N = k + 1 := by omega
        subst hkN
        rw [uniqueRun_le (k+1) (k+1) le_rfl]
        simp
      · rw [uniqueRun, ih hge, uniqueGet_exhausted N hN]
        have : k + 1 - N = (k - N) + 1 := by omega
        rw [this]
        simp [List.replicate_succ', List.append_assoc]

/-- Claim C4: for a data source with N rows distributed under the
Unique strategy, no row index is ever returned twice across all calls
to get_data_for_user; after N calls every row has been handed out
exactly once (in ascending order), and the next call raises the
exhaustion error instead of returning a row. -/
theorem unique_rows_once (N k : ℕ) (hN : 0 < N) :
    ((uniqueRun N k).1.filterMap exceptIndex).Nodup
  ∧ (uniqueRun N N).1 = (List.range N).map Except.ok
  ∧ uniqueGet N (uniqueRun N N).2 = .error "No more unique data available" := by
  refine ⟨?_, ?_, ?_⟩
  · have hfe : (exceptIndex ∘ Except.ok) = some := by
      funext i
      rfl
    rcases le_or_lt k N with hk | hk
    · rw [uniqueRun_le N k hk]
      rw [List.filterMap_map, hfe, List.filterMap_some]
      exact List.nodup_range k
    · have hrep : (List.replicate (k - N)
          (Except.error (ε := String) (α := ℕ) "No more unique data available")).filterMap
            exceptIndex = [] := by
        induction (k - N) with
        | zero => rfl
        | succ m ihm => simp [List.replicate_succ, exceptIndex]
      rw [uniqueRun_ge N k hN (by omega)]
      rw [List.filterMap_append, List.filterMap_map, hfe, List.filterMap_some,
        hrep, List.append_nil]
      exact List.nodup_range N
  · rw [uniqueRun_le N N le_rfl]
  · rw [uniqueRun_le N N le_rfl]
    exact uniqueGet_exhausted N hN

/-- Witness for unique_rows_once with two rows and three calls. -/
theorem unique_rows_once_witness :
    (0 < 2)
  ∧ ((uniqueRun 2 3).1.filterMap exceptIndex).Nodup
  ∧ uniqueGet 2 (uniqueRun 2 2).2 = .error "No more unique data available" := by
  have H := unique_rows_once 2 3 (by decide)
  have H2 := unique_rows_once 2 2 (by decide)
  exact ⟨by decide, H.1, H2.2.2⟩

theorem filterMap_ite_failures {α β : Type} (p : α → Bool) (f : α → β) (l : List α) :
    l.filterMap (fun a => if p a then none else some (f a))
      = (l.filter (fun a => ! p a)).map f := by
  induction l with
  | nil => rfl
  | cons a t ih =>
      by_cases h : p a = true <;> simp [h, ih]

/-- Claim C3 counterexample: with AND logic and two failing
assertions, check_all (and check_all_metrics) records both failures,
so the second assertion was evaluated after the first already failed:
AND does not short-circuit. The concrete inputs mirror the repository
test test_check_all_metrics_and_all_fail, which asserts exactly this
count of two. -/
theorem and_group_records_both_failures :
    (checkAll
        { logic := "AND"
          assertions := [statusCodeAssertion 200 "", statusCodeAssertion 201 ""] }
        { status_code := 500, response_time_us := 0, body := "", headers := "" }).map
      (fun p => (p.1, p.2.length)) = some (false, 2)
  ∧ (checkAllMetrics
        { logic := "AND"
          assertions := [throughputAssertion 15 "", errorRateAssertion 1 ""] }
        [ ("requests_per_second", 10), ("total_requests", 100)
        , ("failed_requests", 2) ]).map
      (fun p => (p.1, p.2.length)) = some (false, 2) := by
  constructor
  · rfl
  · have h1 : (throughputAssertion 15 "").checkMetrics
        [("requests_per_second", 10), ("total_requests", 100), ("failed_requests", 2)]
          = false := by
      simp only [throughputAssertion, getQ, lookupQ, String.reduceEq, reduceIte]
      norm_num
    have h2 : (errorRateAssertion 1 "").checkMetrics
        [("requests_per_second", 10), ("total_requests", 100), ("failed_requests", 2)]
          = false := by
      simp only [errorRateAssertion, getQ, lookupQ, String.reduceEq, reduceIte]
      norm_num
    simp [checkAllMetrics, List.filterMap_cons, h1, h2]

theorem map_all_id {α : Type} (f : α → Bool) (l : List α) :
    (l.map f).all id = l.all f := by
  induction l <;> simp_all

theorem map_any_id {α : Type} (f : α → Bool) (l : List α) :
    (l.map f).any id = l.any f := by
  induction l <;> simp_all

/-- Claim C3 (amended): neither check_all nor check_all_metrics
short-circuits: under both AND and OR logic every assertion in the
group is evaluated, the overall result is the conjunction (AND) or
disjunction (OR) over all of them, and every failing assertion is
recorded in the failure list (sticky failure tracking, even when the
OR group as a whole passes). -/
theorem assertion_groups_evaluate_all
    (g : AssertionGroup) (r : Response)
    (gp : PerformanceAssertionGroup) (m : List (String × ℚ)) :
    (g.logic = "AND" →
      checkAll g r
        = some ( g.assertions.all (fun a => a.check r)
               , (g.assertions.filter (fun a => ! a.check r)).map
                   (fun a => (a, a.errMsg r)) ))
  ∧ (g.logic = "OR" →
      checkAll g r
        = some ( g.assertions.any (fun a => a.check r)
               , (g.assertions.filter (fun a => ! a.check r)).map
                   (fun a => (a, a.errMsg r)) ))
  ∧ (gp.logic = "AND" →
      checkAllMetrics gp m
        = some ( gp.assertions.all (fun a => a.checkMetrics m)
               , (gp.assertions.filter (fun a => ! a.checkMetrics m)).map
                   (fun a => (a, a.errMsg m)) ))
  ∧ (gp.logic = "OR" →
      checkAllMetrics gp m
        = some ( gp.assertions.any (fun a => a.checkMetrics m)
               , (gp.assertions.filter (fun a => ! a.checkMetrics m)).map
                   (fun a => (a, a.errMsg m)) )) := by
  refine ⟨?_, ?_, ?_, ?_⟩ <;> intro hl <;>
    simp [checkAll, checkAllMetrics, hl, filterMap_ite_failures,
      map_all_id, map_any_id]

/-- Witness for assertion_groups_evaluate_all: an OR group that
passes overall yet has its failing member recorded. -/
theorem assertion_groups_evaluate_all_witness :
    (checkAll
        { logic := "OR"
          assertions := [statusCodeAssertion 200 "", statusCodeAssertion 500 ""] }
        { status_code := 500, response_time_us := 0, body := "", headers := "" }).map
      (fun p => (p.1, p.2.length)) = some (true, 1) := by
  have H := (assertion_groups_evaluate_all
    { logic := "OR"
      assertions := [statusCodeAssertion 200 "", statusCodeAssertion 500 ""] }
    { status_code := 500, response_time_us := 0, body := "", headers := "" }
    { logic := "OR", assertions := [] } []).2.1 rfl
  rw [H]
  rfl

/-- Claim C5: on a metrics dictionary whose total_requests entry is
zero, success_rate_at_least(x) passes for every threshold x, and
total_requests_at_least(n) fails for every n > 0. -/
theorem zero_requests_assertions
    (m : List (String × ℚ)) (x : ℚ) (n : ℤ)
    (h0 : getQ m "total_requests" 0 = 0) (hn : 0 < n) :
    (successRateAssertion x "").checkMetrics m = true
  ∧ (totalRequestsAssertion n "").checkMetrics m = false := by
  constructor
  · simp [successRateAssertion, h0]
  · simp only [totalRequestsAssertion, h0]
    rw [decide_eq_false]
    intro hge
    have hq : (0 : ℚ) < (n : ℚ) := by exact_mod_cast hn
    linarith

/-- Witness for zero_requests_assertions on an empty run. -/
theorem zero_requests_assertions_witness :
    getQ [("total_requests", 0)] "total_requests" 0 = 0
  ∧ (0 : ℤ) < 5
  ∧ (successRateAssertion 999 "").checkMetrics [("total_requests", 0)] = true
  ∧ (totalRequestsAssertion 5 "").checkMetrics [("total_requests", 0)] = false := by
  have H := zero_requests_assertions [("total_requests", 0)] 999 5 (by rfl) (by decide)
  exact ⟨by rfl, by decide, H.1, H.2⟩

/-- Claim C10: CustomAssertion.check and
CustomPerformanceAssertion.check_metrics never propagate an exception
from the user callback: whenever the callback raises (none), the
assertion evaluates to false; when the callback returns a boolean,
that boolean is the result. -/
theorem custom_assertions_catch
    (f : Response → Option Bool) (g : List (String × ℚ) → Option Bool)
    (msg1 msg2 : String) (r : Response) (m : List (String × ℚ))
    (hf : f r = none) (hg : g m = none) :
    (customAssertion f msg1).check r = false
  ∧ (customPerformanceAssertion g msg2).checkMetrics m = false
  ∧ (∀ (f2 : Response → Option Bool) (b : Bool),
        f2 r = some b → (customAssertion f2 msg1).check r = b)
  ∧ (∀ (g2 : List (String × ℚ) → Option Bool) (b : Bool),
        g2 m = some b → (customPerformanceAssertion g2 msg2).checkMetrics m = b) := by
  refine ⟨?_, ?_, ?_, ?_⟩
  · simp [customAssertion, hf]
  · simp [customPerformanceAssertion, hg]
  · intro f2 b hb
    simp [customAssertion, hb]
  · intro g2 b hb
    simp [customPerformanceAssertion, hb]

/-- Witness for custom_assertions_catch with an always-raising
callback. -/
theorem custom_assertions_catch_witness :
    (customAssertion (fun _ => none) "").check
        { status_code := 200, response_time_us := 0, body := "", headers := "" } = false
  ∧ (customPerformanceAssertion (fun _ => none) "").checkMetrics [] = false := by
  have H := custom_assertions_catch (fun _ => none) (fun _ => none) "" ""
    { status_code := 200, response_time_us := 0, body := "", headers := "" } []
    rfl rfl
  exact ⟨H.1, H.2.1⟩

theorem lookupKey_dictSet_self (m : List (String × String)) (k v : String) :
    lookupKey (dictSet m k v) k = some v := by
  induction m with
  | nil => simp [dictSet, lookupKey]
  | cons p rest ih =>
      by_cases h : p.1 = k <;> simp [dictSet, lookupKey, h, ih]

theorem lookupKey_dictSet_ne (m : List (String × String)) (k k2 v : String)
    (h : k ≠ k2) : lookupKey (dictSet m k v) k2 = lookupKey m k2 := by
  induction m with
  | nil => simp [dictSet, lookupKey, h]
  | cons p rest ih =>
      by_cases hp : p.1 = k
      · simp [dictSet, lookupKey, hp, h]
      · simp [dictSet, lookupKey, hp, ih]

/-- Claim C2 counterexample: with base headers that already carry
Authorization and Cookie, a session holding one cookie and a bearer
token makes prepare_request_headers return Authorization
Bearer T (the session token, not the explicit base value) and a
Cookie value with the session cookies appended to the base value:
explicit base headers do not win over session-derived headers. -/
theorem prepare_request_headers_base_loses :
    (prepareRequestHeaders
        { data := [], cookies := [("sid", "42")], tokens := [("bearer", "T")] }
        0
        [("Authorization", "Basic xyz"), ("Cookie", "a=b")]).map
      (fun hs => (lookupKey hs "Authorization", lookupKey hs "Cookie"))
      = some (some "Bearer T", some "a=b; sid=42")
  ∧ some "Bearer T" ≠ some "Basic xyz"
  ∧ some "a=b; sid=42" ≠ some "a=b" := by
  refine ⟨rfl, by decide, by decide⟩

/-- Claim C2 (amended): on a header-name conflict the session-derived
headers win, not the explicit base headers: for every base-header
map, a session with cookies cs, a non-empty bearer token t with no
stored expiry, a non-empty api_key token a and a custom csrf token c
(no configured header names) yields headers in which Authorization is
Bearer t, X-API-Key is a and X-Csrf-Token is c regardless of the base
values, while an explicit base Cookie value is kept and the session
cookie string is appended to it; without a base Cookie header the
value is exactly the session cookie string. -/
theorem prepare_request_headers_session_wins
    (base : List (String × String)) (cs : List (String × String))
    (t a c : String) (now : ℚ)
    (hcs : cs ≠ []) (ht : t ≠ "") (ha : a ≠ "") :
    ∃ hs : List (String × String),
      prepareRequestHeaders
          { data := []
            cookies := cs
            tokens := [("bearer", t), ("api_key", a), ("csrf", c)] }
          now base = some hs
      ∧ lookupKey hs "Authorization" = some ("Bearer " ++ t)
      ∧ lookupKey hs "X-API-Key" = some a
      ∧ lookupKey hs "X-Csrf-Token" = some c
      ∧ (∀ bc : String, lookupKey base "Cookie" = some bc →
            lookupKey hs "Cookie" = some (bc ++ "; " ++ joinCookies cs))
      ∧ (lookupKey base "Cookie" = none →
            lookupKey hs "Cookie" = some (joinCookies cs)) := by
  have hname : getDataStr
      { data := ([] : List (String × SVal)), cookies := cs
        tokens := [("bearer", t), ("api_key", a), ("csrf", c)] }
      "api_key_header" "X-API-Key" = "X-API-Key" := rfl
  have hcsrf : getDataStr
      { data := ([] : List (String × SVal)), cookies := cs
        tokens := [("bearer", t), ("api_key", a), ("csrf", c)] }
      ("csrf" ++ "_header") ("X-" ++ pyTitle "csrf" ++ "-Token")
        = "X-Csrf-Token" := rfl
  set headers1 : List (String × String) :=
    match lookupKey base "Cookie" with
    | some v => dictSet base "Cookie" (v ++ "; " ++ joinCookies cs)
    | none => dictSet base "Cookie" (joinCookies cs) with hheaders1
  refine ⟨dictSet (dictSet (dictSet headers1 "Authorization" ("Bearer " ++ t))
      "X-API-Key" a) "X-Csrf-Token" c, ?_, ?_, ?_, ?_, ?_, ?_⟩
  · simp only [prepareRequestHeaders, lookupKey, joinCookies, isTokenExpired,
      lookupVal, addTokenHeaders, hname, hcsrf, hcs, ht, ha,
      if_neg, String.reduceEq, reduceIte]
    simp [ht, ha, hcs, hheaders1, joinCookies]
  · rw [lookupKey_dictSet_ne _ _ _ _ (by decide),
      lookupKey_dictSet_ne _ _ _ _ (by decide), lookupKey_dictSet_self]
  · rw [lookupKey_dictSet_ne _ _ _ _ (by decide), lookupKey_dictSet_self]
  · rw [lookupKey_dictSet_self]
  · intro bc hbc
    rw [lookupKey_dictSet_ne _ _ _ _ (by decide),
      lookupKey_dictSet_ne _ _ _ _ (by decide),
      lookupKey_dictSet_ne _ _ _ _ (by decide)]
    rw [hheaders1, hbc]
    exact lookupKey_dictSet_self _ _ _
  · intro hbc
    rw [lookupKey_dictSet_ne _ _ _ _ (by decide),
      lookupKey_dictSet_ne _ _ _ _ (by decide),
      lookupKey_dictSet_ne _ _ _ _ (by decide)]
    rw [hheaders1, hbc]
    exact lookupKey_dictSet_self _ _ _

/-- Witness for prepare_request_headers_session_wins on concrete
base headers that conflict on every session-derived name. -/
theorem prepare_request_headers_session_wins_witness :
    ([("sid", "42")] : List (String × String)) ≠ []
  ∧ ("T" : String) ≠ ""
  ∧ ("K" : String) ≠ ""
  ∧ ∃ hs : List (String × String),
      prepareRequestHeaders
          { data := [], cookies := [("sid", "42")]
            tokens := [("bearer", "T"), ("api_key", "K"), ("csrf", "C")] }
          0
          [ ("Authorization", "Basic xyz"), ("X-API-Key", "old")
          , ("X-Csrf-Token", "stale"), ("Cookie", "a=b") ] = some hs
      ∧ lookupKey hs "Authorization" = some ("Bearer " ++ "T")
      ∧ lookupKey hs "X-API-Key" = some "K"
      ∧ lookupKey hs "X-Csrf-Token" = some "C" := by
  have H := prepare_request_headers_session_wins
    [ ("Authorization", "Basic xyz"), ("X-API-Key", "old")
    , ("X-Csrf-Token", "stale"), ("Cookie", "a=b") ]
    [("sid", "42")] "T" "K" "C" 0 (by decide) (by decide) (by decide)
  obtain ⟨hs, h1, h2, h3, h4, _, _⟩ := H
  exact ⟨by decide, by decide, by decide, hs, h1, h2, h3, h4⟩

theorem stringMk_data (s : String) : String.mk s.data = s := by
  cases s
  rfl

theorem splitAtBrace_append (n post : List Char) (hn : '\x7d' ∉ n) :
    splitAtBrace (n ++ '\x7d' :: post) = some (n, post) := by
  induction n with
  | nil => simp [splitAtBrace]
  | cons c cs ih =>
      have hc : c ≠ '\x7d' := fun h => hn (h ▸ List.mem_cons_self c cs)
      have ih2 := ih (fun h => hn (List.mem_cons_of_mem c h))
      simp [splitAtBrace, hc, ih2]

theorem splitFirstDot_append (n post : List Char) (hn : '.' ∉ n) :
    splitFirstDot (n ++ '.' :: post) = some (n, post) := by
  induction n with
  | nil => simp [splitFirstDot]
  | cons c cs ih =>
      have hc : c ≠ '.' := fun h => hn (h ▸ List.mem_cons_self c cs)
      have ih2 := ih (fun h => hn (List.mem_cons_of_mem c h))
      simp [splitFirstDot, hc, ih2]

theorem substChars_split (rv : String → String) (pre name post : List Char)
    (hpre : '$' ∉ pre) (hname : '\x7d' ∉ name) (hne : name ≠ []) :
    substChars rv (pre ++ '$' :: '\x7b' :: (name ++ '\x7d' :: post))
      = pre ++ (rv (String.mk name)).data ++ substChars rv post := by
  induction pre with
  | nil =>
      rw [List.nil_append, substChars.eq_def]
      simp only [reduceIte]
      split
      · next name1 after heq =>
          rw [splitAtBrace_append name post hname] at heq
          injection heq with heq2
          injection heq2 with h1 h2
          subst h1
          subst h2
          simp [hne]
      · next heq =>
          rw [splitAtBrace_append name post hname] at heq
          exact absurd heq (by simp)
  | cons c cs ih =>
      have hc : c ≠ '$' := fun h => hpre (h ▸ List.mem_cons_self c cs)
      have ih2 := ih (fun h => hpre (List.mem_cons_of_mem c h))
      rw [List.cons_append, substChars.eq_def]
      simp only [hc, reduceIte, if_neg hc]
      rw [ih2]
      simp

/-- Claim C8: variable substitution replaces each placeholder by
resolving a dotted source.field name against the user data rows
first (the scenario variable of the same full name is ignored when
that succeeds), falls back to the scenario variable map only when
the dotted lookup fails, and is applied by _process_request to the
url, the body and every header value of an operation. -/
theorem substitution_source_first
    (userData : List (String × List (String × Option String)))
    (vars : List (String × String))
    (pre post name src fld : String)
    (row : List (String × Option String)) (v : Option String)
    (req : HTTPRequest)
    (hpre : '$' ∉ pre.data) (hname : '\x7d' ∉ name.data) (hne : name ≠ "")
    (hsrc : '.' ∉ src.data)
    (hud : userData ≠ [])
    (hrow : alistLookup userData src = some row)
    (hfld : alistLookup row fld = some v) :
    substituteVariables userData vars (pre ++ "$\x7b" ++ name ++ "\x7d" ++ post)
      = pre ++ replaceVar userData vars name
          ++ substituteVariables userData vars post
  ∧ replaceVar userData vars (src ++ "." ++ fld) = v.getD ""
  ∧ (∀ w : String, dottedLookup userData name = none →
        lookupKey vars name = some w → replaceVar userData vars name = w)
  ∧ (processRequest userData vars req).url
      = substituteVariables userData vars req.url
  ∧ (processRequest userData vars req).body
      = substituteVariables userData vars req.body
  ∧ (processRequest userData vars req).headers
      = req.headers.map (fun p => (p.1, substituteVariables userData vars p.2))
  ∧ (processRequest userData vars req).method = req.method := by
  have hdata : (pre ++ "$\x7b" ++ name ++ "\x7d" ++ post).data
      = pre.data ++ '$' :: '\x7b' :: (name.data ++ '\x7d' :: post.data) := by
    simp [String.data_append]
  refine ⟨?_, ?_, ?_, rfl, rfl, rfl, rfl⟩
  · have hne2 : (pre ++ "$\x7b" ++ name ++ "\x7d" ++ post) ≠ "" := by
      intro h
      have h2 := congrArg String.data h
      rw [hdata] at h2
      simp at h2
    have hnd : name.data ≠ [] := by
      intro h
      apply hne
      rw [← stringMk_data name, h]
    have hsubpost : substituteVariables userData vars post
        = String.mk (substChars (replaceVar userData vars) post.data) := by
      by_cases hp : post = ""
      · subst hp
        rw [substituteVariables, if_pos rfl]
        rw [show ("" : String).data = [] from rfl]
        rw [substChars.eq_def]
      · rw [substituteVariables, if_neg hp]
    rw [substituteVariables, if_neg hne2, hdata,
      substChars_split _ _ _ _ hpre hname hnd, stringMk_data, hsubpost]
    apply String.ext
    simp [String.data_append]
  · have hdot : (src ++ "." ++ fld).data = src.data ++ '.' :: fld.data := by
      simp [String.data_append]
    have hd : dottedLookup userData (src ++ "." ++ fld) = some (v.getD "") := by
      rw [dottedLookup, if_neg hud, hdot,
        splitFirstDot_append src.data fld.data hsrc]
      dsimp only
      rw [stringMk_data, stringMk_data, hrow]
      dsimp only
      rw [hfld]
    rw [replaceVar, hd]
  · intro w h1 h2
    rw [replaceVar, h1]
    dsimp only
    rw [h2]

/-- Witness for substitution_source_first: a concrete template url
with a dotted placeholder that is shadowed by a scenario variable of
the same full name and a second placeholder resolved from the
variables. -/
theorem substitution_source_first_witness :
    substituteVariables
        [("users", [("id", some "1"), ("name", some "alice")])]
        [("users.id", "SHADOW"), ("tok", "TTT")]
        ("/u/" ++ "$\x7b" ++ "users.id" ++ "\x7d" ++ "?n=$\x7btok\x7d")
      = "/u/" ++ replaceVar
            [("users", [("id", some "1"), ("name", some "alice")])]
            [("users.id", "SHADOW"), ("tok", "TTT")] "users.id"
          ++ substituteVariables
              [("users", [("id", some "1"), ("name", some "alice")])]
              [("users.id", "SHADOW"), ("tok", "TTT")] "?n=$\x7btok\x7d"
  ∧ replaceVar
        [("users", [("id", some "1"), ("name", some "alice")])]
        [("users.id", "SHADOW"), ("tok", "TTT")] ("users" ++ "." ++ "id")
      = (some "1").getD "" := by
  have H := substitution_source_first
    [("users", [("id", some "1"), ("name", some "alice")])]
    [("users.id", "SHADOW"), ("tok", "TTT")]
    "/u/" "?n=$\x7btok\x7d" "users.id" "users" "id"
    [("id", some "1"), ("name", some "alice")] (some "1")
    { url := "u", method := "GET", headers := [], body := "", timeout_ms := 30000 }
    (by decide) (by decide) (by decide) (by decide) (by decide) rfl rfl
  exact ⟨H.1, H.2.1⟩

end LoadSpiker
